import Mathlib

/-!
Shallow embedding of the core coordination and broadcast layer of the
mcp-server-vegalite-viewer repository, together with theorems settling the
frozen claims about it.

Modelling conventions:
- Viewer connections are identified by natural numbers; a WebSocket send that
  may fail is modelled by a predicate `sendFails : Nat → Bool` saying which
  connections raise when sent to.
- Timestamps (`time.time()` values) are modelled as integers; only ordering
  and addition of constants matter to the code under study.
- File contents of the two persisted state files are modelled by small
  inductive types distinguishing the cases the loading code distinguishes:
  absent file, empty/whitespace content, malformed JSON, and a well-formed
  parsed state.
- A Python function that can raise is modelled by returning an explicit
  `raised` flag (or a sum type); logging a warning is modelled by a `warned`
  flag where a claim mentions it.
-/

namespace VegaViewer

/-! Embedding of viewer_manager.py (class ViewerManager). -/

/-- State of `ViewerManager`: the ordered list of registered viewer
connections and the last broadcast visualization (`None` initially, hence
`Option String`). -/
structure ViewerManager where
  active_viewer_connections : List Nat
  last_visualization : Option String
deriving Repr, DecidableEq

/-- Embedding of `ViewerManager.connect`: registers the connection (appends it
to the list), then sends the last visualization to it when that value is
truthy in Python, i.e. not `None` and not the empty string. Returns the new
state and the list of messages sent to the joining connection. -/
def connect (vm : ViewerManager) (conn : Nat) : ViewerManager × List String :=
  let vm' : ViewerManager :=
    { vm with active_viewer_connections := vm.active_viewer_connections ++ [conn] }
  match vm.last_visualization with
  | none => (vm', [])
  | some s => if s = "" then (vm', []) else (vm', [s])

/-- Embedding of `ViewerManager.disconnect`: removes the first occurrence of
the connection when present, a no-op otherwise (the Python code guards
`list.remove` with a membership test). -/
def disconnect (vm : ViewerManager) (conn : Nat) : ViewerManager :=
  { vm with active_viewer_connections := vm.active_viewer_connections.erase conn }

/-- The send loop of `ViewerManager.broadcast_visualization`: sends to each
connection in order; there is no exception handler, so a failing send aborts
the loop. Returns the connections actually delivered to and whether an
exception was raised. -/
def sendAll (sendFails : Nat → Bool) : List Nat → List Nat × Bool
  | [] => ([], false)
  | c :: cs =>
    if sendFails c then ([], true)
    else
      let r := sendAll sendFails cs
      (c :: r.1, r.2)

/-- Embedding of `ViewerManager.broadcast_visualization`: runs the send loop
over the registered connections; `self.last_visualization = visualization` is
only reached when no send raised. Returns the new state, the delivered
connections, and whether the call raised. -/
def broadcast_visualization (sendFails : Nat → Bool) (vm : ViewerManager)
    (visualization : String) : ViewerManager × List Nat × Bool :=
  let r := sendAll sendFails vm.active_viewer_connections
  if r.2 then (vm, r.1, true)
  else ({ vm with last_visualization := some visualization }, r.1, false)

/-- Closed form of the send loop: delivery reaches exactly the connections
before the first failing one, and the loop raises iff some registered
connection fails. -/
theorem sendAll_eq (sf : Nat → Bool) (l : List Nat) :
    sendAll sf l = (l.takeWhile (fun c => !sf c), l.any sf) := by
  induction l with
  | nil => rfl
  | cons c cs ih =>
    by_cases h : sf c
    · simp [sendAll, h]
    · simp [sendAll, h, ih]

/-- C1, counterexample: with connections [1, 2] where sending to connection 1
raises, `broadcast_visualization` delivers to nobody (connection 2 is blocked),
raises to the caller, keeps the failing connection registered, and leaves the
last payload unchanged — contradicting the claim that broadcast is best-effort
(failure swallowed, failing connection dropped, payload still stored). -/
theorem broadcast_not_best_effort_cex :
    broadcast_visualization (fun c => c == 1) ⟨[1, 2], none⟩ "v"
      = (⟨[1, 2], none⟩, [], true) := by
  decide

/-- C1, amended: `broadcast_visualization` sends to the registered connections
in registration order up to the first failing send; when some send fails the
exception propagates to the caller, later connections receive nothing, and the
connection list and last payload are unchanged; only when every send succeeds
is the payload stored as the new last payload. -/
theorem broadcast_first_failure_aborts (sf : Nat → Bool) (vm : ViewerManager)
    (viz : String) :
    broadcast_visualization sf vm viz =
      ((if vm.active_viewer_connections.any sf then vm
        else { vm with last_visualization := some viz }),
       vm.active_viewer_connections.takeWhile (fun c => !sf c),
       vm.active_viewer_connections.any sf) := by
  by_cases h : vm.active_viewer_connections.any sf
  · simp [broadcast_visualization, sendAll_eq, h]
  · simp [broadcast_visualization, sendAll_eq, h]

/-- C7, counterexample: after `broadcast_visualization` of the empty string
(which succeeds and stores `""` as the last payload), a joining connection
receives no replay at all, not the broadcast payload — the claim fails for
P = `""`. -/
theorem replay_skips_empty_payload_cex :
    (connect (broadcast_visualization (fun _ => false) ⟨[], none⟩ "").1 7).2 = []
      ∧ ([] : List String) ≠ [""] := by
  decide

/-- C7, amended: a connection joining after a successful
`broadcast_visualization` of a non-empty payload P, with no intervening
broadcast, is registered and receives exactly P upon joining; for the empty
string, the truthiness guard suppresses the replay. -/
theorem replay_after_broadcast (sf : Nat → Bool) (vm : ViewerManager)
    (c : Nat) (P : String)
    (hok : (broadcast_visualization sf vm P).2.2 = false)
    (hne : P ≠ "") :
    (connect (broadcast_visualization sf vm P).1 c).2 = [P] ∧
    (connect (broadcast_visualization sf vm P).1 c).1.active_viewer_connections
      = vm.active_viewer_connections ++ [c] := by
  have hstate : (broadcast_visualization sf vm P).1
      = { vm with last_visualization := some P } := by
    unfold broadcast_visualization at hok ⊢
    by_cases h : (sendAll sf vm.active_viewer_connections).2
    · simp [h] at hok
    · simp [h]
  rw [hstate]
  simp [connect, hne]

/-- C7 witness: a concrete application of `replay_after_broadcast` at payload
"p" with no send failures and a joiner with id 3. -/
theorem replay_after_broadcast_witness :
    (connect (broadcast_visualization (fun _ => false) ⟨[], none⟩ "p").1 3).2 = ["p"] ∧
    (connect (broadcast_visualization (fun _ => false) ⟨[], none⟩ "p").1
        3).1.active_viewer_connections = [] ++ [3] :=
  replay_after_broadcast (fun _ => false) ⟨[], none⟩ 3 "p" (by decide) (by decide)

/-- C9: when the last broadcast payload is the empty string, a newly connecting
client is registered (appended to the connection list) but receives no replay,
because the replay condition tests Python truthiness of the payload rather
than its presence. -/
theorem connect_empty_payload_no_replay (vm : ViewerManager) (c : Nat)
    (h : vm.last_visualization = some "") :
    (connect vm c).2 = [] ∧
    (connect vm c).1.active_viewer_connections
      = vm.active_viewer_connections ++ [c] := by
  simp [connect, h]

/-- C9 witness: concrete instance with one prior connection and last payload
`""`; the joiner with id 4 is registered and gets no replay. -/
theorem connect_empty_payload_no_replay_witness :
    (connect ⟨[9], some ""⟩ 4).2 = [] ∧
    (connect ⟨[9], some ""⟩ 4).1.active_viewer_connections = [9] ++ [4] :=
  connect_empty_payload_no_replay ⟨[9], some ""⟩ 4 (by decide)

/-- C10: when any send raises during `broadcast_visualization`, the stored
last payload is left unchanged (the assignment sits after the loop), so a
client connecting afterwards is replayed exactly what it would have been
replayed before the failed broadcast. -/
theorem broadcast_failure_keeps_last (sf : Nat → Bool) (vm : ViewerManager)
    (viz : String) (conn : Nat)
    (h : (broadcast_visualization sf vm viz).2.2 = true) :
    (broadcast_visualization sf vm viz).1.last_visualization
        = vm.last_visualization ∧
    connect (broadcast_visualization sf vm viz).1 conn = connect vm conn := by
  have hstate : (broadcast_visualization sf vm viz).1 = vm := by
    unfold broadcast_visualization at h ⊢
    by_cases hb : (sendAll sf vm.active_viewer_connections).2
    · simp [hb]
    · simp [hb] at h
  rw [hstate]
  exact ⟨rfl, rfl⟩

/-- C10 witness: concrete instance where sending to the single registered
connection 1 fails: the last payload stays "old" and a later joiner with id 5
is replayed "old", not "new". -/
theorem broadcast_failure_keeps_last_witness :
    (broadcast_visualization (fun c => c == 1) ⟨[1], some "old"⟩ "new").1.last_visualization
        = some "old" ∧
    connect (broadcast_visualization (fun c => c == 1) ⟨[1], some "old"⟩ "new").1 5
        = connect ⟨[1], some "old"⟩ 5 :=
  broadcast_failure_keeps_last (fun c => c == 1) ⟨[1], some "old"⟩ "new" 5 (by decide)

/-! Embedding of web_server.py (class WebServerController and its durable
lock store). The in-memory `self._locked_ports` dict is modelled as an
association list with Python-dict insertion (overwrite in place, append when
new); `self._is_port_in_use` is modelled as a predicate `piu : Nat → Bool`
giving the outcome of the bind probe for each port. -/

/-- The in-memory locked-ports mapping: port number to expiry timestamp. -/
abbrev Ports := List (Nat × Int)

/-- Dict lookup on the locked-ports association list. -/
def lookupPort : Ports → Nat → Option Int
  | [], _ => none
  | (q, v) :: rest, p => if q = p then some v else lookupPort rest p

/-- Dict assignment `m[p] = u`: overwrites the entry in place when the key is
present, appends otherwise (Python dict insertion-order semantics). -/
def insertPort : Ports → Nat → Int → Ports
  | [], p, u => [(p, u)]
  | (q, v) :: rest, p, u =>
    if q = p then (p, u) :: rest else (q, v) :: insertPort rest p u

/-- Content of the web-server controller state file, as distinguished by
`_load_state`: absent, empty or whitespace-only, malformed JSON, or a parsed
state whose "locked_ports" object maps port strings to expiry numbers. -/
inductive FileContent where
  | absent
  | emptyOrWhitespace
  | invalidJson
  | validState (persisted_ports : List (Nat × Int))
deriving Repr, DecidableEq

/-- Result of `WebServerController._load_state`: the in-memory mapping
afterwards, whether the call re-raised an exception, and whether it logged a
warning. -/
structure LoadOutcome where
  locked_ports : Ports
  raised : Bool
  warned : Bool
deriving Repr, DecidableEq

/-- The filtering loop of `_load_state`: iterates the persisted entries in
order, skips an entry when `now >= locked_until` (expired) or when the bind
probe says the port is no longer busy, and otherwise writes it into the
existing in-memory mapping (which is NOT cleared beforehand). -/
def loadLoop (now : Int) (piu : Nat → Bool) : Ports → List (Nat × Int) → Ports
  | mem, [] => mem
  | mem, (p, u) :: rest =>
    if now ≥ u then loadLoop now piu mem rest
    else if piu p then loadLoop now piu (insertPort mem p u) rest
    else loadLoop now piu mem rest

/-- Embedding of `WebServerController._load_state`: an absent file and
empty/whitespace content leave the in-memory mapping untouched and return
normally; malformed JSON logs a warning, resets the mapping to empty, and
re-raises; a parsed state is filtered for staleness and merged into the
in-memory mapping. -/
def load_state (mem : Ports) (file : FileContent) (now : Int)
    (piu : Nat → Bool) : LoadOutcome :=
  match file with
  | .absent => ⟨mem, false, false⟩
  | .emptyOrWhitespace => ⟨mem, false, false⟩
  | .invalidJson => ⟨[], true, true⟩
  | .validState persisted => ⟨loadLoop now piu mem persisted, false, false⟩

/-- Port lock duration from web_server.py (WEB_SERVER_PORT_LOCK_SECS). -/
def WEB_SERVER_PORT_LOCK_SECS : Int := 600

/-- Result of `WebServerController._lock_port`: either the mapping that was
persisted, or a DuplicateInstanceOnSamePortError carrying the conflicting
port (always `none` there) together with the in-memory mapping left behind. -/
inductive LockResult where
  | ok (locked_ports : Ports)
  | duplicateError (conflicting_port : Option Nat) (locked_ports : Ports)
deriving Repr, DecidableEq

/-- Embedding of `WebServerController._lock_port`: reload the store, write the
entry for the port, save; any exception in that sequence (a re-raised load
error or a failing save, the latter modelled by `saveFails`) is caught and
re-raised as DuplicateInstanceOnSamePortError with conflicting port `None`. -/
def lock_port (mem : Ports) (file : FileContent) (now : Int) (piu : Nat → Bool)
    (saveFails : Bool) (port : Nat) (locked_until : Int) : LockResult :=
  let lo := load_state mem file now piu
  if lo.raised then .duplicateError none lo.locked_ports
  else
    let m := insertPort lo.locked_ports port locked_until
    if saveFails then .duplicateError none m
    else .ok m

/-- Outcome of `WebServerController.start`: one of the two domain errors, a
propagated load exception, or a successful start carrying the persisted
locked-ports mapping. -/
inductive StartOutcome where
  | duplicateInstance (conflicting_port : Option Nat)
  | portInUseByAnotherService (port : Nat)
  | loadError
  | started (locked_ports : Ports)
deriving Repr, DecidableEq

/-- Embedding of `WebServerController.start`: first
`is_already_running_on_same_port` (a load, whose exception would propagate,
then a membership test — a hit raises DuplicateInstanceOnSamePortError with
the port), then the `_is_port_in_use` bind probe (a hit raises
PortInUseByAnotherServiceError), then `_lock_port` with expiry
`now + WEB_SERVER_PORT_LOCK_SECS` before binding and serving. -/
def start (mem : Ports) (file : FileContent) (now : Int) (piu : Nat → Bool)
    (saveFails : Bool) (port : Nat) : StartOutcome :=
  let lo := load_state mem file now piu
  if lo.raised then .loadError
  else if (lookupPort lo.locked_ports port).isSome then
    .duplicateInstance (some port)
  else if piu port then .portInUseByAnotherService port
  else
    match lock_port lo.locked_ports file now piu saveFails port
        (now + WEB_SERVER_PORT_LOCK_SECS) with
    | .duplicateError cp _ => .duplicateInstance cp
    | .ok m => .started m

/-- Lookup after a dict assignment: the assigned key reads back the new value,
every other key is unchanged. -/
theorem lookupPort_insertPort (m : Ports) (p : Nat) (u : Int) (q : Nat) :
    lookupPort (insertPort m p u) q
      = if p = q then some u else lookupPort m q := by
  induction m with
  | nil =>
    by_cases h : p = q
    · simp [insertPort, lookupPort, h]
    · simp [insertPort, lookupPort, h]
  | cons hd tl ih =>
    obtain ⟨a, b⟩ := hd
    by_cases hap : a = p
    · subst hap
      by_cases haq : a = q
      · simp [insertPort, lookupPort, haq]
      · simp [insertPort, lookupPort, haq]
    · by_cases haq : a = q
      · subst haq
        have hpq : ¬ p = a := fun h => hap h.symm
        simp [insertPort, lookupPort, hap, hpq]
      · simp [insertPort, lookupPort, hap, haq, ih]

/-- The load filter never deletes a key that is already present in the
in-memory mapping. -/
theorem loadLoop_preserves_isSome (now : Int) (piu : Nat → Bool)
    (l : List (Nat × Int)) :
    ∀ mem port, (lookupPort mem port).isSome = true →
      (lookupPort (loadLoop now piu mem l) port).isSome = true := by
  induction l with
  | nil => intro mem port h; exact h
  | cons hd tl ih =>
    intro mem port h
    obtain ⟨p, u⟩ := hd
    by_cases h1 : now ≥ u
    · simpa [loadLoop, h1] using ih mem port h
    · by_cases h2 : piu p
      · have h' : (lookupPort (insertPort mem p u) port).isSome = true := by
          rw [lookupPort_insertPort]
          by_cases hpq : p = port
          · simp [hpq]
          · simpa [hpq] using h
        simpa [loadLoop, h1, h2] using ih (insertPort mem p u) port h'
      · simpa [loadLoop, h1, h2] using ih mem port h

/-- A persisted entry that is unexpired and whose port the probe reports busy
survives the load filter: the port is present in the resulting mapping. -/
theorem loadLoop_mem_isSome (now : Int) (piu : Nat → Bool)
    (l : List (Nat × Int)) (port : Nat) (u : Int) :
    ∀ mem, (port, u) ∈ l → now < u → piu port = true →
      (lookupPort (loadLoop now piu mem l) port).isSome = true := by
  induction l with
  | nil => intro mem h; exact absurd h (List.not_mem_nil _)
  | cons hd tl ih =>
    intro mem hmem hlt hbusy
    obtain ⟨p, v⟩ := hd
    rcases List.mem_cons.mp hmem with heq | htl
    · have hp : p = port := by
        have := congrArg Prod.fst heq
        simpa using this.symm
      have hv : v = u := by
        have := congrArg Prod.snd heq
        simpa using this.symm
      have h1 : ¬ now ≥ v := by rw [hv]; exact not_le.mpr hlt
      have hb : piu p = true := by rw [hp]; exact hbusy
      have hsome : (lookupPort (insertPort mem p v) port).isSome = true := by
        rw [lookupPort_insertPort, hp]
        simp
      simpa [loadLoop, h1, hb] using
        loadLoop_preserves_isSome now piu tl (insertPort mem p v) port hsome
    · by_cases h1 : now ≥ v
      · simpa [loadLoop, h1] using ih mem htl hlt hbusy
      · by_cases h2 : piu p
        · simpa [loadLoop, h1, h2] using ih (insertPort mem p v) htl hlt hbusy
        · simpa [loadLoop, h1, h2] using ih mem htl hlt hbusy

/-- When every persisted entry for a port is stale (expired, or the port is
reported not busy), the load filter leaves the lookup of that port exactly as
it was in the pre-existing in-memory mapping. -/
theorem loadLoop_stale (now : Int) (piu : Nat → Bool)
    (l : List (Nat × Int)) (port : Nat)
    (hstale : ∀ u, (port, u) ∈ l → now ≥ u ∨ piu port = false) :
    ∀ mem, lookupPort (loadLoop now piu mem l) port = lookupPort mem port := by
  induction l with
  | nil => intro mem; rfl
  | cons hd tl ih =>
    intro mem
    obtain ⟨p, v⟩ := hd
    have htl : ∀ u, (port, u) ∈ tl → now ≥ u ∨ piu port = false :=
      fun u hu => hstale u (List.mem_cons_of_mem _ hu)
    by_cases h1 : now ≥ v
    · simpa [loadLoop, h1] using ih htl mem
    · by_cases h2 : piu p
      · have hp : ¬ p = port := by
          intro hp
          subst hp
          rcases hstale v (List.mem_cons_self _ _) with h | h
          · exact h1 h
          · rw [h2] at h; exact Bool.noConfusion h
        have := ih htl (insertPort mem p v)
        rw [lookupPort_insertPort, if_neg hp] at this
        simpa [loadLoop, h1, h2] using this
      · simpa [loadLoop, h1, h2] using ih htl mem

/-- Every binding produced by the load filter either was already in memory or
comes from an unexpired, probe-verified-busy persisted entry. -/
theorem loadLoop_lookup_some (now : Int) (piu : Nat → Bool)
    (l : List (Nat × Int)) (port : Nat) (u : Int) :
    ∀ mem, lookupPort (loadLoop now piu mem l) port = some u →
      lookupPort mem port = some u
        ∨ ((port, u) ∈ l ∧ now < u ∧ piu port = true) := by
  induction l with
  | nil => intro mem h; exact Or.inl h
  | cons hd tl ih =>
    intro mem h
    obtain ⟨p, v⟩ := hd
    by_cases h1 : now ≥ v
    · rw [loadLoop, if_pos h1] at h
      rcases ih mem h with hl | ⟨hm, hlt, hb⟩
      · exact Or.inl hl
      · exact Or.inr ⟨List.mem_cons_of_mem _ hm, hlt, hb⟩
    · by_cases h2 : piu p
      · rw [loadLoop, if_neg h1, if_pos h2] at h
        rcases ih (insertPort mem p v) h with hl | ⟨hm, hlt, hb⟩
        · rw [lookupPort_insertPort] at hl
          by_cases hpq : p = port
          · rw [if_pos hpq] at hl
            have hv : v = u := Option.some.inj hl
            subst hv; subst hpq
            exact Or.inr ⟨List.mem_cons_self _ _, not_le.mp h1, h2⟩
          · rw [if_neg hpq] at hl
            exact Or.inl hl
        · exact Or.inr ⟨List.mem_cons_of_mem _ hm, hlt, hb⟩
      · rw [loadLoop, if_neg h1, if_neg (by simpa using h2)] at h
        rcases ih mem h with hl | ⟨hm, hlt, hb⟩
        · exact Or.inl hl
        · exact Or.inr ⟨List.mem_cons_of_mem _ hm, hlt, hb⟩

/-! Embedding of web_browser.py (class WebBrowserController). The
`threading.Timer` armed by `_disable` is modelled by recording its deadline;
when a later call happens at a time at or past the deadline, the timer has
fired `_enable` by then. `persisted` records the last value handed to
`_save_state` (the reopen-disabled-until timestamp, 0 meaning cleared). -/

/-- Runtime state of `WebBrowserController`. -/
structure WebBrowserController where
  opened : Bool
  reopen_timer : Option Int
  reopen_secs : Int
  persisted : Int
deriving Repr, DecidableEq

/-- Browser reopen throttle window from web_browser.py
(WEB_BROWSER_REOPEN_SECS). -/
def WEB_BROWSER_REOPEN_SECS : Int := 300

/-- Embedding of `WebBrowserController._enable` (the timer callback):
re-enables opening, clears the timer, persists 0. -/
def browserEnable (c : WebBrowserController) : WebBrowserController :=
  { c with opened := false, reopen_timer := none, persisted := 0 }

/-- Embedding of `WebBrowserController._disable`: disables opening, cancels
any pending timer and arms a fresh one for `reopen_secs` from now, persists
`now + reopen_secs`. -/
def browserDisable (c : WebBrowserController) (now : Int) : WebBrowserController :=
  { c with
      opened := true
      reopen_timer := some (now + c.reopen_secs)
      persisted := now + c.reopen_secs }

/-- Timer semantics: a pending `_enable` timer whose deadline has been reached
by `now` has fired by the time a call at `now` runs. -/
def fireTimerIfDue (c : WebBrowserController) (now : Int) : WebBrowserController :=
  match c.reopen_timer with
  | none => c
  | some d => if d ≤ now then browserEnable c else c

/-- Embedding of `WebBrowserController.open` at time `now`: performs the
browser-launch side effect iff not currently disabled, then disables for the
throttle window. Returns the new state and whether the launch happened. -/
def browserOpen (c : WebBrowserController) (now : Int) :
    WebBrowserController × Bool :=
  let c' := fireTimerIfDue c now
  if c'.opened then (c', false) else (browserDisable c' now, true)

/-- Runs a sequence of `open` calls at the given (nondecreasing) times and
counts how many performed the browser-launch side effect. -/
def runOpens : WebBrowserController → List Int → WebBrowserController × Nat
  | c, [] => (c, 0)
  | c, t :: ts =>
    let r := browserOpen c t
    let r2 := runOpens r.1 ts
    (r2.1, (if r.2 then 1 else 0) + r2.2)

/-- A freshly constructed controller with no persisted disable in effect:
`_opened = False`, no timer. -/
def freshBrowser (rs : Int) : WebBrowserController := ⟨false, none, rs, 0⟩

/-- Content of the web-browser controller state file, as distinguished by
`WebBrowserController._load_state`; a parsed state carries the
reopen-disabled-until timestamp (0 when the key is missing). -/
inductive BrowserFileContent where
  | absent
  | emptyOrWhitespace
  | invalidJson
  | validState (reopen_disabled_until : Int)
deriving Repr, DecidableEq

/-- Result of `WebBrowserController._load_state` run at construction time:
the controller state, whether a warning was logged, and whether an exception
escaped (every handler there swallows, so this is always false). -/
structure BrowserLoadOutcome where
  ctrl : WebBrowserController
  warned : Bool
  raised : Bool
deriving Repr, DecidableEq

/-- Embedding of `WebBrowserController._load_state` (run by the constructor on
the initial `_opened = False`, no-timer state): absent/empty content leaves the
defaults; malformed JSON logs a warning and falls back to enabled; a parsed
disable-until still in the future starts the instance disabled with a timer
armed for the remaining duration, otherwise it starts enabled. All exceptions
are caught, none re-raised. -/
def browser_load_state (file : BrowserFileContent) (now : Int) (rs : Int) :
    BrowserLoadOutcome :=
  match file with
  | .absent => ⟨freshBrowser rs, false, false⟩
  | .emptyOrWhitespace => ⟨freshBrowser rs, false, false⟩
  | .invalidJson => ⟨{ freshBrowser rs with opened := false }, true, false⟩
  | .validState rdu =>
    if now < rdu then
      ⟨{ freshBrowser rs with opened := true, reopen_timer := some rdu },
       false, false⟩
    else
      ⟨{ freshBrowser rs with opened := false }, false, false⟩

/-- C2, counterexample: on malformed JSON the web-server lock store's
`_load_state` re-raises after logging — the error does propagate to the
caller, contradicting the claim that both loaders never propagate. -/
theorem corrupt_state_propagates_cex :
    (load_state [] .invalidJson 0 (fun _ => false)).raised = true := by
  decide

/-- C2, amended: the browser throttle's `_load_state` recovers locally from
malformed JSON (warns, falls back to enabled, never raises), but the
web-server lock store's `_load_state` logs a warning and resets the in-memory
mapping to empty and then re-raises the error to the caller. -/
theorem corrupt_state_recovery_amended (mem : Ports) (now : Int)
    (piu : Nat → Bool) (file : BrowserFileContent) (now2 rs : Int) :
    load_state mem .invalidJson now piu = ⟨[], true, true⟩ ∧
    (browser_load_state file now2 rs).raised = false ∧
    (browser_load_state .invalidJson now2 rs).warned = true ∧
    (browser_load_state .invalidJson now2 rs).ctrl.opened = false := by
  refine ⟨rfl, ?_, rfl, rfl⟩
  cases file with
  | validState rdu => by_cases h : now2 < rdu <;> simp [browser_load_state, h]
  | absent => rfl
  | emptyOrWhitespace => rfl
  | invalidJson => rfl

/-- C3: `start(port)` classifies in order: an unexpired lock entry for the
port that survives the probe-verification prune raises
DuplicateInstanceOnSamePort with the port; otherwise a busy bind probe with no
surviving lock entry raises PortInUseByAnotherService; otherwise a lock entry
with expiry `now + WEB_SERVER_PORT_LOCK_SECS` is written and the server
proceeds to bind and serve. -/
theorem start_classification (persisted : List (Nat × Int)) (now : Int)
    (piu : Nat → Bool) (port : Nat) (u : Int) :
    ((port, u) ∈ persisted → now < u → piu port = true →
      start [] (.validState persisted) now piu false port
        = .duplicateInstance (some port)) ∧
    (piu port = true → (∀ v, (port, v) ∈ persisted → now ≥ v) →
      start [] (.validState persisted) now piu false port
        = .portInUseByAnotherService port) ∧
    (piu port = false →
      ∃ m, start [] (.validState persisted) now piu false port = .started m ∧
        lookupPort m port = some (now + WEB_SERVER_PORT_LOCK_SECS)) := by
  refine ⟨?_, ?_, ?_⟩
  · intro hmem hlt hbusy
    have hs := loadLoop_mem_isSome now piu persisted port u [] hmem hlt hbusy
    simp [start, load_state, hs]
  · intro hbusy hexp
    have hstale : ∀ v, (port, v) ∈ persisted → now ≥ v ∨ piu port = false :=
      fun v hv => Or.inl (hexp v hv)
    have hnone : lookupPort (loadLoop now piu [] persisted) port = none := by
      rw [loadLoop_stale now piu persisted port hstale []]
      rfl
    simp [start, load_state, hnone, hbusy]
  · intro hfree
    have hstale : ∀ v, (port, v) ∈ persisted → now ≥ v ∨ piu port = false :=
      fun v _ => Or.inr hfree
    have hnone : lookupPort (loadLoop now piu [] persisted) port = none := by
      rw [loadLoop_stale now piu persisted port hstale []]
      rfl
    refine ⟨insertPort (loadLoop now piu (loadLoop now piu [] persisted) persisted)
        port (now + WEB_SERVER_PORT_LOCK_SECS), ?_, ?_⟩
    · simp [start, load_state, hnone, hfree, lock_port]
    · rw [lookupPort_insertPort]
      simp

/-- C3 witness: the three classification outcomes at concrete inputs — an
unexpired busy lock entry for 8000 yields the duplicate-instance error, an
expired entry with the port still busy yields the foreign-service error, and a
free port is started with a lock entry expiring 600 seconds from now. -/
theorem start_classification_witness :
    start [] (.validState [(8000, 100)]) 0 (fun _ => true) false 8000
      = .duplicateInstance (some 8000) ∧
    start [] (.validState [(8000, 100)]) 200 (fun _ => true) false 8000
      = .portInUseByAnotherService 8000 ∧
    (∃ m, start [] (.validState []) 0 (fun _ => false) false 8000 = .started m ∧
      lookupPort m 8000 = some (0 + WEB_SERVER_PORT_LOCK_SECS)) :=
  ⟨(start_classification [(8000, 100)] 0 (fun _ => true) 8000 100).1
      (by decide) (by decide) rfl,
   (start_classification [(8000, 100)] 200 (fun _ => true) 8000 100).2.1
      rfl (by intro v hv; simp at hv; omega),
   (start_classification [] 0 (fun _ => false) 8000 0).2.2 rfl⟩

/-- C4, counterexample: when the state file is absent, `_load_state` returns
without touching the pre-existing in-memory mapping, so a mapping holding
(8000, 100) stays non-empty — contradicting the claim that the in-memory
mapping then equals the empty mapping. -/
theorem load_absent_keeps_memory_cex :
    (load_state [(8000, 100)] .absent 0 (fun _ => false)).locked_ports
      = [(8000, 100)] ∧ ([(8000, 100)] : Ports) ≠ ([] : Ports) := by
  decide

/-- C4, amended: starting from an empty in-memory mapping, every binding
produced by a load of a parsed state file comes from an on-disk entry that is
unexpired and whose port the probe verified busy; but `_load_state` merges
into (rather than replaces) existing in-memory state, and an absent file
leaves the in-memory mapping unchanged instead of emptying it. -/
theorem load_refresh_amended (now : Int) (piu : Nat → Bool)
    (persisted : List (Nat × Int)) (port : Nat) (u : Int) (mem : Ports)
    (h : lookupPort
        (load_state [] (.validState persisted) now piu).locked_ports port
      = some u) :
    (now < u ∧ piu port = true ∧ (port, u) ∈ persisted) ∧
    (load_state mem .absent now piu).locked_ports = mem := by
  refine ⟨?_, rfl⟩
  have h' : lookupPort (loadLoop now piu [] persisted) port = some u := h
  rcases loadLoop_lookup_some now piu persisted port u [] h' with hl | ⟨hm, hlt, hb⟩
  · simp [lookupPort] at hl
  · exact ⟨hlt, hb, hm⟩

/-- C4 witness: a concrete application of `load_refresh_amended` to a
one-entry state file read into an empty in-memory mapping, together with the
absent-file case on a non-empty mapping. -/
theorem load_refresh_amended_witness :
    (((0 : Int) < 10 ∧ (fun _ => true) 8000 = true
        ∧ ((8000 : Nat), (10 : Int)) ∈ [((8000 : Nat), (10 : Int))]) ∧
      (load_state [(1, 2)] .absent 0 (fun _ => true)).locked_ports = [(1, 2)]) :=
  load_refresh_amended 0 (fun _ => true) [(8000, 10)] 8000 10 [(1, 2)] (by decide)

/-- C5: any exception inside `_lock_port`'s load-then-save sequence with a
failing save is caught and surfaced as DuplicateInstanceOnSamePortError with
unknown (None) conflicting port, never as the original I/O error — the result
type has no other error alternative because the handler converts them all. -/
theorem lock_save_failure_as_duplicate (mem : Ports) (file : FileContent)
    (now : Int) (piu : Nat → Bool) (port : Nat) (locked_until : Int) :
    ∃ m, lock_port mem file now piu true port locked_until
      = .duplicateError none m := by
  by_cases h : (load_state mem file now piu).raised
  · exact ⟨(load_state mem file now piu).locked_ports, by simp [lock_port, h]⟩
  · exact ⟨insertPort (load_state mem file now piu).locked_ports port locked_until,
      by simp [lock_port, h]⟩

/-- C6, counterexample: an expired on-disk entry (expiry 50, now 100) for a
port already present in the in-memory mapping is still present after the load,
because the filter only controls what gets added from disk and the pre-existing
in-memory binding survives. -/
theorem load_expired_entry_survives_cex :
    lookupPort (load_state [(8000, 50)] (.validState [(8000, 50)]) 100
        (fun _ => true)).locked_ports 8000 = some 50 ∧ ¬ ((100 : Int) < 50) := by
  decide

/-- C6, amended: an on-disk entry that is expired (`expiresAt <= now`) or
whose port is no longer bound is never inserted by `_load_state`; the port is
absent from the resulting mapping whenever it was not already present in the
in-memory mapping before the load (in particular in a fresh process), but a
pre-existing in-memory binding for it survives. -/
theorem load_prunes_stale_amended (mem : Ports) (persisted : List (Nat × Int))
    (now : Int) (piu : Nat → Bool) (port : Nat)
    (hmem : lookupPort mem port = none)
    (hstale : ∀ u, (port, u) ∈ persisted → now ≥ u ∨ piu port = false) :
    lookupPort (load_state mem (.validState persisted) now piu).locked_ports port
      = none := by
  show lookupPort (loadLoop now piu mem persisted) port = none
  rw [loadLoop_stale now piu persisted port hstale mem]
  exact hmem

/-- C6 witness: loading a state file whose only entry for port 8000 expired at
50 into an empty in-memory mapping at time 100 leaves 8000 unlocked. -/
theorem load_prunes_stale_amended_witness :
    lookupPort (load_state [] (.validState [(8000, 50)]) 100
        (fun _ => true)).locked_ports 8000 = none :=
  load_prunes_stale_amended [] [(8000, 50)] 100 (fun _ => true) 8000 rfl
    (by intro u hu; simp at hu; exact Or.inl (by omega))

/-- Firing the reopen timer does not change the configured throttle window. -/
theorem fireTimerIfDue_reopen_secs (c : WebBrowserController) (now : Int) :
    (fireTimerIfDue c now).reopen_secs = c.reopen_secs := by
  unfold fireTimerIfDue
  cases c.reopen_timer with
  | none => rfl
  | some d => by_cases h : d ≤ now <;> simp [h, browserEnable]

/-- C8: `open(port)` performs the browser-launch side effect iff the throttle
is not disabled at that call; a launch disables auto-opening for
`reopen_secs`, persisting `now + reopen_secs` and arming a timer for that
deadline; consequently two calls on a fresh 300-second throttle within the
window launch exactly once and a further call at or after the window's end
launches again. -/
theorem browser_throttle (c : WebBrowserController) (now t t' t'' : Int) :
    ((browserOpen c now).2 = true ↔ (fireTimerIfDue c now).opened = false) ∧
    ((browserOpen c now).2 = true →
      (browserOpen c now).1.opened = true ∧
      (browserOpen c now).1.persisted = now + c.reopen_secs ∧
      (browserOpen c now).1.reopen_timer = some (now + c.reopen_secs)) ∧
    (t ≤ t' → t' < t + 300 → t + 300 ≤ t'' →
      (runOpens (freshBrowser 300) [t, t']).2 = 1 ∧
      (runOpens (freshBrowser 300) [t, t', t'']).2 = 2) := by
  refine ⟨?_, ?_, ?_⟩
  · by_cases h : (fireTimerIfDue c now).opened
    · simp [browserOpen, h]
    · simp [browserOpen, h]
  · intro hl
    have hopen : (fireTimerIfDue c now).opened = false := by
      by_cases h : (fireTimerIfDue c now).opened
      · simp [browserOpen, h] at hl
      · simpa using h
    simp [browserOpen, hopen, browserDisable, fireTimerIfDue_reopen_secs]
  · intro h1 h2 h3
    have s1 : browserOpen (freshBrowser 300) t
        = (⟨true, some (t + 300), 300, t + 300⟩, true) := rfl
    have s2 : browserOpen ⟨true, some (t + 300), 300, t + 300⟩ t'
        = (⟨true, some (t + 300), 300, t + 300⟩, false) := by
      have hn : ¬ (t + 300 ≤ t') := by omega
      simp [browserOpen, fireTimerIfDue, hn]
    have s3 : browserOpen ⟨true, some (t + 300), 300, t + 300⟩ t''
        = (⟨true, some (t'' + 300), 300, t'' + 300⟩, true) := by
      simp [browserOpen, fireTimerIfDue, h3, browserEnable, browserDisable]
    constructor
    · simp [runOpens, s1, s2]
    · simp [runOpens, s1, s2, s3]

/-- C8 witness: on a fresh 300-second throttle, open calls at times 0 and 1
launch exactly once, and calls at times 0, 1 and 300 launch exactly twice. -/
theorem browser_throttle_witness :
    (runOpens (freshBrowser 300) [0, 1]).2 = 1 ∧
    (runOpens (freshBrowser 300) [0, 1, 300]).2 = 2 :=
  (browser_throttle (freshBrowser 300) 0 0 1 300).2.2
    (by decide) (by decide) (by decide)

end VegaViewer
